import Mathlib

/-
Verification of the pytest-bdd feature-file parser (src/pytest_bdd/parser.py).

The parser is a single-pass, mode-sticky line classifier that builds a
Feature / Background / ScenarioTemplate / Step / Examples document tree.
This file embeds the classifier functions, the document model, the parse
state machine, the template renderer and the validator as executable Lean
definitions, and proves properties about them.

Modelling conventions:
- Python strings are Lean `String`s manipulated through their character
  lists; only ASCII whitespace (space, tab, CR, LF) is modelled, which
  covers every input considered here.
- Mutable Python objects with back-references (Step -> ScenarioTemplate,
  Step -> Background, the aliased `scenario` / `step` loop variables) are
  modelled with explicit identifiers (an arena of ids) and explicit state
  passing; object identity is compared by id.  Distinct scenarios and
  backgrounds built in one parse always carry distinct ids, matching
  Python object comparison on the trees the parser builds.
- A raised exception is an `Except.error`; `AttributeError` caused by
  dereferencing an absent object or an unassigned dataclass field is a
  dedicated error constructor.
- File reading, path resolution (`os.path`) and encodings happen before
  parsing and are out of scope; the parser is given the file name and the
  already-split list of lines.
-/

/-- Modelled from the spec: the mode tokens of the `types` module, which is
not part of the sources (only `parser.py` is).  The spec lists the
recognized prefixes (Feature, Scenario Outline, Examples, Scenario,
Background, Given, When, Then, tag) and the two table sub-modes
("awaiting column names", "awaiting data rows"); `STEP_TYPES` are
Given/When/Then. -/
inductive ModeTy where
  | feature
  | scenarioOutline
  | examples
  | scenario
  | background
  | givenStep
  | whenStep
  | thenStep
  | tag
  | examplesHeaders
  | exampleLine
deriving DecidableEq

/-- Python `str.lstrip()` (ASCII whitespace). -/
def pyLstrip (s : String) : String :=
  String.mk (s.data.dropWhile Char.isWhitespace)

/-- Python `str.rstrip()` (ASCII whitespace). -/
def pyRstrip (s : String) : String :=
  String.mk ((s.data.reverse.dropWhile Char.isWhitespace).reverse)

/-- Python `str.strip()` (ASCII whitespace). -/
def pyStrip (s : String) : String :=
  pyLstrip (pyRstrip s)

/-- Python `p == s[:len(p)]`, i.e. `str.startswith`. -/
def pyStartsWith (s p : String) : Bool :=
  p.data.isPrefixOf s.data

/-- Python `str.endswith`. -/
def pyEndsWith (s p : String) : Bool :=
  p.data.isSuffixOf s.data

/-- `s[n:]` on characters. -/
def pyDrop (s : String) (n : Nat) : String :=
  String.mk (s.data.drop n)

/-- `s[:-n]` on characters (here only used with `n ≤ len s`). -/
def pyDropRight (s : String) (n : Nat) : String :=
  String.mk (s.data.take (s.data.length - n))

/-- `"\n".join ls`. -/
def joinNL : List String → String
  | [] => ""
  | [s] => s
  | s :: rest => s ++ "\n" ++ joinNL rest

/-- `STEP_PREFIXES`: ordered prefix table; `And`/`But` carry no intrinsic
type (`None` in the source), which makes them indistinguishable from a
non-match for `get_step_type`. -/
def STEP_PREFIXES : List (String × Option ModeTy) :=
  [ ("Feature: ", some ModeTy.feature),
    ("Scenario Outline: ", some ModeTy.scenarioOutline),
    ("Examples:", some ModeTy.examples),
    ("Scenario: ", some ModeTy.scenario),
    ("Background:", some ModeTy.background),
    ("Given ", some ModeTy.givenStep),
    ("When ", some ModeTy.whenStep),
    ("Then ", some ModeTy.thenStep),
    ("@", some ModeTy.tag),
    ("And ", none),
    ("But ", none) ]

/-- `SPLIT_LINE_RE = (?<!\\)\|` splitting: a `|` splits unless the
character immediately before it in the line is a backslash. -/
def splitUnescapedAux : Option Char → List Char → List Char → List (List Char)
  | _, acc, [] => [acc.reverse]
  | prev, acc, c :: rest =>
    if c = '|' ∧ prev ≠ some '\\' then
      acc.reverse :: splitUnescapedAux (some c) [] rest
    else
      splitUnescapedAux (some c) (c :: acc) rest

/-- `cell.replace ("\\|", "|")`: leftmost, non-overlapping. -/
def unescapePipes : List Char → List Char
  | '\\' :: '|' :: rest => '|' :: unescapePipes rest
  | c :: rest => c :: unescapePipes rest
  | [] => []

/-- `split_line`: split the Examples row on unescaped pipes, drop the
first and the last segment (`[1:-1]`), unescape `\|` and strip each cell. -/
def split_line (line : String) : List String :=
  (((splitUnescapedAux none [] line.data).drop 1).dropLast).map
    (fun cs => pyStrip (String.mk (unescapePipes cs)))

/-- `parse_line`: first matching prefix wins; returns the stripped prefix
and the stripped remainder, or `("", line)` when nothing matches. -/
def parse_line (line : String) : String × String :=
  match STEP_PREFIXES.find? (fun p => pyStartsWith line p.1) with
  | some p => (pyStrip p.1, pyStrip (pyDrop line p.1.length))
  | none => ("", line)

/-- `COMMENT_RE = (^|(?<=\s))#`: truncate at the first `#` that is at the
line start or immediately preceded by whitespace. -/
def stripCommentsAux : Option Char → List Char → List Char
  | _, [] => []
  | prev, c :: rest =>
    if c = '#' ∧ (prev = none ∨ (prev.map Char.isWhitespace) = some true) then []
    else c :: stripCommentsAux (some c) rest

/-- `strip_comments`. -/
def strip_comments (line : String) : String :=
  pyStrip (String.mk (stripCommentsAux none line.data))

/-- `get_step_type`: type of the first matching prefix; `None` both for
`And`/`But` (their table entry is `None`) and for no match. -/
def get_step_type (line : String) : Option ModeTy :=
  (STEP_PREFIXES.find? (fun p => pyStartsWith line p.1)).bind (fun p => p.2)

/-- Python `str.split (" @")`: leftmost, non-overlapping split on the
two-character separator. -/
def splitSpaceAt : List Char → List Char → List (List Char)
  | acc, ' ' :: '@' :: rest => acc.reverse :: splitSpaceAt [] rest
  | acc, c :: rest => splitSpaceAt (c :: acc) rest
  | acc, [] => [acc.reverse]

/-- `get_tags`: empty set unless the stripped line starts with `@`;
otherwise split on `" @"`, keep only pieces longer than one character
(`len(tag) > 1`), and strip every leading `@` (`lstrip("@")`).  The Python
result is a set; it is modelled as a duplicate-free list whose membership
is the set membership (iteration order of a Python set is unspecified). -/
def get_tags (line : Option String) : List String :=
  match line with
  | none => []
  | some l =>
    if l = "" ∨ ¬ pyStartsWith (pyStrip l) "@" then []
    else
      (((splitSpaceAt [] (pyStrip l).data).filter (fun t => 1 < t.length)).map
        (fun t => String.mk (t.dropWhile (fun c => c = '@')))).dedup

/-- `STEP_PARAM_RE = <(.+?)>` substitution, `re.sub` with
`str(context[varname])` as the replacement.  One left-to-right pass: after
a `<`, the lazily matched group is every character up to the first `>`
that leaves the group non-empty, and may not contain a newline; on a
failed candidate (newline or end of input before a closing `>`) the
scanned text is emitted verbatim, which coincides with the regex engine
restarting after the `<` because the scanned span can contain no other
match start.  `none` models the `KeyError` raised by the replacer for a
placeholder name absent from the context mapping. -/
def substRun (ctx : List (String × String)) : Option (List Char) → List Char → Option (List Char)
  | none, [] => some []
  | none, c :: rest =>
    if c = '<' then substRun ctx (some []) rest
    else (substRun ctx none rest).map (fun t => c :: t)
  | some acc, [] => some ('<' :: acc.reverse)
  | some acc, c :: rest =>
    if acc ≠ [] ∧ c = '>' then
      match (((ctx.filter (fun p => p.1 = String.mk acc.reverse)).map Prod.snd).getLast?) with
      | none => none
      | some v => (substRun ctx none rest).map (fun t => v.data ++ t)
    else if c = '\n' then
      (substRun ctx none rest).map (fun t => '<' :: (acc.reverse ++ c :: t))
    else
      substRun ctx (some (c :: acc)) rest

/-- `STEP_PARAM_RE.sub (lambda m: str(context[m.group(1)]), text)`; the
context is a Python dict built by `dict(zip(...))`, so a duplicated key
keeps its last value: lookup takes the last matching pair. -/
def pySub (ctx : List (String × String)) (text : String) : Option String :=
  (substRun ctx none text.data).map (fun cs => String.mk cs)

/-- Python `str.split('\n')`: always at least one segment. -/
def splitNLChars : List Char → List (List Char)
  | [] => [[]]
  | '\n' :: rest => [] :: splitNLChars rest
  | c :: rest =>
    match splitNLChars rest with
    | [] => [[c]]
    | g :: gs => (c :: g) :: gs

/-- Join with `'\n'` (inverse of `splitNLChars`). -/
def joinNLChars : List (List Char) → List Char
  | [] => []
  | [l] => l
  | l :: rest => l ++ '\n' :: joinNLChars rest

/-- A line matching `^[ \t]+$` (non-empty, only blanks and tabs). -/
def isWsOnly (l : List Char) : Bool :=
  decide (l ≠ []) && l.all (fun c => c = ' ' ∨ c = '\t')

/-- Longest common prefix of two character lists. -/
def lcp : List Char → List Char → List Char
  | x :: xs, y :: ys => if x = y then x :: lcp xs ys else []
  | _, _ => []

/-- `textwrap.dedent` on the split lines: lines of blanks/tabs only are
normalized to empty; the margin is the longest common prefix of the
leading blank/tab runs of the lines that contain any other character; a
non-empty margin is removed from the start of every line it prefixes. -/
def pyDedentLines (ls : List (List Char)) : List (List Char) :=
  let norm := ls.map (fun l => if isWsOnly l then [] else l)
  let indents := norm.filterMap (fun l =>
    if l.any (fun c => ¬ (c = ' ' ∨ c = '\t')) then
      some (l.takeWhile (fun c => c = ' ' ∨ c = '\t'))
    else none)
  let margin := match indents with
    | [] => []
    | i :: is => is.foldl lcp i
  if margin = [] then norm
  else norm.map (fun l => if margin.isPrefixOf l then l.drop margin.length else l)

/-- `textwrap.dedent` on a string. -/
def pyDedent (s : String) : String :=
  String.mk (joinNLChars (pyDedentLines (splitNLChars s.data)))

/-- `re.sub(r'^"""\n(?P<content>.*)\n"""$', content, string, flags=DOTALL)`:
with `^`/`$` anchored to the whole string, `$` also matching just before a
final newline, and a greedy `.*` spanning newlines.  A match requires the
leading `"""` line and a closing `"""` line (possibly followed by one
final newline, which then survives the substitution). -/
def removeTripleQuotes (s : String) : String :=
  if pyStartsWith s "\"\"\"\n" then
    let r := pyDrop s 4
    if pyEndsWith r "\n\"\"\"" then pyDropRight r 4
    else if pyEndsWith r "\n\"\"\"\n" then pyDropRight r 5 ++ "\n"
    else s
  else s

/-- The body of the `Step.name` property, given the `_name` field value
and the accumulated continuation lines: dedent the joined continuation
block, strip a bracketing pair of `"""` lines, join with the single-line
remainder and strip. -/
def reconstructName (nm : String) (lines : List String) : String :=
  let multilines_content := if lines ≠ [] then pyDedent (joinNL lines) else ""
  let multilines_content := removeTripleQuotes multilines_content
  pyStrip (nm ++ "\n" ++ multilines_content)

/-- `Examples`: the example table.  `as_contexts` and truthiness are
defined below. -/
structure Examples where
  example_params : List String := []
  examples : List (List String) := []
  line_number : Option Nat := none
  name : Option String := none
deriving DecidableEq

/-- `Step`.  The dataclass declares the fields `_name`, `line_number` and
`failed`, but the hand-written `Step.__init__` overrides the generated
one and assigns only `type`, `indent`, `keyword`, `docstring`,
`datatable`, `scenario`, `background` and `lines`: the `name` and
`line_number` constructor arguments are accepted and dropped, so the
`_name` and `line_number` attributes of a constructed Step do not exist
(`failed` falls back to the class-level dataclass default `False`).
These two fields are therefore `Option`s, `none` meaning "attribute
never assigned": reading them in Python raises `AttributeError`.
The `scenario` / `background` back-references are arena ids. -/
structure Step where
  type : ModeTy
  name_ : Option String
  line_number : Option Nat
  indent : Nat
  keyword : String
  docstring : Option String
  datatable : Option (List (List String))
  failed : Bool
  scenarioRef : Option Nat
  backgroundRef : Option Nat
  lines : List String
deriving DecidableEq

/-- `Step.__init__(type, name, line_number, indent, keyword, ...)`: the
`name` and `line_number` parameters are unused in the source, so the
corresponding fields stay unset. -/
def Step.init (type : ModeTy) (name : String) (line_number : Nat)
    (indent : Nat) (keyword : String) : Step :=
  { type := type
    name_ := none
    line_number := none
    indent := indent
    keyword := keyword
    docstring := none
    datatable := none
    failed := false
    scenarioRef := none
    backgroundRef := none
    lines := [] }

/-- The `Step.name` property: `none` models the `AttributeError` raised
because `_name` was never assigned. -/
def Step.nameProp (s : Step) : Option String :=
  s.name_.map (fun nm => reconstructName nm s.lines)

/-- Errors of `Step.render` / `ScenarioTemplate.render`: reading a
never-assigned attribute (`AttributeError`) or a placeholder lookup
failure (`KeyError`). -/
inductive RenderErr where
  | attributeError
  | keyError
deriving DecidableEq

/-- `Step.render(context)`: substitute `<name>` placeholders in the
reconstructed step text.  Reading `self.name` happens first. -/
def Step.render (s : Step) (ctx : List (String × String)) : Except RenderErr String :=
  match s.nameProp with
  | none => Except.error RenderErr.attributeError
  | some nm =>
    match pySub ctx nm with
    | none => Except.error RenderErr.keyError
    | some r => Except.ok r

/-- `Background`.  The `feature` back-reference is modelled as a flag
(set by the parser); `id` is the arena identity. -/
structure Background where
  id : Nat
  featureRef : Bool
  line_number : Nat
  steps : List Step
deriving DecidableEq

/-- `Background.add_step`: sets the step's background back-reference and
appends. -/
def Background.add_step (b : Background) (s : Step) : Background :=
  { b with steps := b.steps ++ [{ s with backgroundRef := some b.id }] }

/-- `ScenarioTemplate`.  `steps_` is the private `_steps` list (its own
steps, without background steps); `featureRef` models the non-owning
feature back-reference; `id` is the arena identity. -/
structure ScenarioTemplate where
  id : Nat
  featureRef : Bool
  name : String
  line_number : Nat
  templated : Bool
  tags : List String
  examples : Examples
  steps_ : List Step
deriving DecidableEq

/-- `ScenarioTemplate.add_step`: sets the step's scenario back-reference
and appends to `_steps`. -/
def ScenarioTemplate.add_step (sc : ScenarioTemplate) (s : Step) : ScenarioTemplate :=
  { sc with steps_ := sc.steps_ ++ [{ s with scenarioRef := some sc.id }] }

/-- `Feature`: ordered, name-keyed scenario collection (association list
in insertion order), optional background, tags, description. -/
structure Feature where
  scenarios : List (String × ScenarioTemplate)
  filename : String
  rel_filename : String
  name : Option String
  tags : List String
  background : Option Background
  line_number : Nat
  description : String
deriving DecidableEq

/-- The `ScenarioTemplate.steps` property.  In the source it dereferences
`self.feature.background`; the feature is passed explicitly here (the
parser wires the back-reference to the unique owning feature). -/
def ScenarioTemplate.stepsProp (sc : ScenarioTemplate) (f : Feature) : List Step :=
  (match f.background with
   | some b => b.steps
   | none => []) ++ sc.steps_

/-- `Scenario`: the immutable rendered snapshot.  Its `feature`
back-reference (to the same feature passed to `render`) is not repeated
here. -/
structure Scenario where
  name : String
  line_number : Nat
  steps : List Step
  tags : List String
deriving DecidableEq

/-- `ScenarioTemplate.render(context)`: background steps pass through
unmodified; a templated scenario rebuilds each own step via
`Step(name=step.render(context), type=..., indent=..., line_number=step.line_number,
keyword=...)` — evaluating `step.render` first, then reading the
(never-assigned) `step.line_number`. -/
def ScenarioTemplate.render (sc : ScenarioTemplate) (f : Feature)
    (ctx : List (String × String)) : Except RenderErr Scenario :=
  let background_steps := match f.background with
    | some b => b.steps
    | none => []
  if ¬ sc.templated then
    Except.ok { name := sc.name, line_number := sc.line_number,
                steps := background_steps ++ sc.steps_, tags := sc.tags }
  else
    match sc.steps_.mapM (fun step => do
        let nm ← step.render ctx
        let ln ← match step.line_number with
          | none => Except.error RenderErr.attributeError
          | some n => Except.ok n
        Except.ok (Step.init step.type nm ln step.indent step.keyword)) with
    | Except.error e => Except.error e
    | Except.ok scenario_steps =>
      Except.ok { name := sc.name, line_number := sc.line_number,
                  steps := background_steps ++ scenario_steps, tags := sc.tags }

/-- `Examples.as_contexts`: empty when there are no rows; otherwise each
row must have as many cells as the header (`assert`, modelled as `none`)
and yields the row as a mapping `dict(zip(header, row))`. -/
def Examples.as_contexts (e : Examples) : Option (List (List (String × String))) :=
  if e.examples = [] then some []
  else if e.examples.all (fun row => row.length = e.example_params.length) then
    some (e.examples.map (fun row => e.example_params.zip row))
  else none

/-- Validator outcome: the `ValidationError` integrity error (its message
abstracted to a short label), or the `AttributeError` that message
formatting itself raises when it has to render a `Step` whose `_name`
attribute was never assigned (`Step.__str__` reads `self.name`). -/
inductive VError where
  | validationError (label : String)
  | attributeError
deriving DecidableEq

/-- Raise a `ValidationError` whose message interpolates a `Step`
(`f"Step {step} ..."`): `Step.__str__` reads the `name` property, which
raises `AttributeError` when `_name` was never assigned. -/
def raiseStepError (step : Step) (label : String) : Except VError Unit :=
  if step.name_.isSome then Except.error (VError.validationError label)
  else Except.error VError.attributeError

/-- `ScenarioTemplate.validate`: the feature back-reference must be set;
every own step must not reference a background and must reference this
exact scenario. -/
def ScenarioTemplate.validate (sc : ScenarioTemplate) : Except VError Unit := do
  if ¬ sc.featureRef then
    Except.error (VError.validationError "Missing feature")
  sc.steps_.forM (fun step => do
    if step.backgroundRef ≠ none then
      raiseStepError step "step connected to a background"
    if step.scenarioRef ≠ some sc.id then
      raiseStepError step "step not connected to the scenario")

/-- `Background.validate`: the feature back-reference must be set (the
message formats `self`, whose dataclass repr renders every step); every
step must reference this exact background and no scenario. -/
def Background.validate (b : Background) : Except VError Unit := do
  if ¬ b.featureRef then
    if b.steps.all (fun st => st.name_.isSome) then
      Except.error (VError.validationError "background not connected to a feature")
    else
      Except.error VError.attributeError
  b.steps.forM (fun step => do
    if step.backgroundRef ≠ some b.id then
      raiseStepError step "step not connected to the background"
    if step.scenarioRef ≠ none then
      raiseStepError step "step connected to a scenario")

/-- `Feature.validate`: every map key must equal its scenario's name
(this message interpolates only plain strings), each scenario validates,
then the background (if any) validates. -/
def Feature.validate (f : Feature) : Except VError Unit := do
  f.scenarios.forM (fun kv => do
    if kv.1 ≠ kv.2.name then
      Except.error (VError.validationError "scenario_name mismatch")
    kv.2.validate)
  match f.background with
  | some b => b.validate
  | none => Except.ok ()

/-- Errors aborting `parse_feature`: the `FeatureError` (message, 1-based
line number, comment-stripped line text, filename) and the
`AttributeError` raised by dereferencing the absent current scenario
(`scenario` is `None`). -/
inductive ParseErr where
  | featureError (message : String) (line_number : Nat) (line : String) (filename : String)
  | noneAttribute
deriving DecidableEq

/-- Where the active (multi-line-accumulating) step lives: it is always
the most recently appended step of that container. -/
inductive StepLoc where
  | inBackground
  | inScenario
deriving DecidableEq

/-- The local state of the `parse_feature` loop: the feature fields under
construction plus the loop variables `scenario` (tracked by its key in
the ordered scenario map, which the current scenario object always
occupies), `mode`, `prev_mode`, `description`, `step` (location and
indent of the active step), `multiline_step` and `prev_line`.  `nextId`
feeds the arena identities. -/
structure PState where
  featureName : Option String
  featureLineNumber : Nat
  featureTags : List String
  featureBackground : Option Background
  scenarios : List (String × ScenarioTemplate)
  scenarioKey : Option String
  mode : Option ModeTy
  prevMode : Option ModeTy
  description : List String
  activeStep : Option (StepLoc × Nat)
  multilineStep : Bool
  prevLine : Option String
  nextId : Nat

/-- `feature.scenarios[key] = sc` on an `OrderedDict`: an existing key
keeps its position and gets the new value, a new key is appended. -/
def odInsert (m : List (String × ScenarioTemplate)) (k : String) (v : ScenarioTemplate) :
    List (String × ScenarioTemplate) :=
  if m.any (fun kv => kv.1 = k) then
    m.map (fun kv => if kv.1 = k then (k, v) else kv)
  else m ++ [(k, v)]

/-- Mutate the scenario object registered under `k` (the loop variable
`scenario` aliases exactly this entry). -/
def updateScenario (m : List (String × ScenarioTemplate)) (k : String)
    (f : ScenarioTemplate → ScenarioTemplate) : List (String × ScenarioTemplate) :=
  m.map (fun kv => if kv.1 = k then (kv.1, f kv.2) else kv)

/-- `step.add_line(line)` on the active step, which is the last step of
its container. -/
def addLineLast (l : String) : List Step → List Step
  | [] => []
  | [st] => [{ st with lines := st.lines ++ [l] }]
  | st :: rest => st :: addLineLast l rest

/-- Append a raw continuation line to the active step. -/
def addContinuation (st : PState) (loc : StepLoc) (line : String) : PState :=
  { st with
    multilineStep := true
    featureBackground :=
      if loc = StepLoc.inBackground then
        st.featureBackground.map (fun b => { b with steps := addLineLast line b.steps })
      else st.featureBackground
    scenarios :=
      if loc = StepLoc.inScenario then
        match st.scenarioKey with
        | some k => updateScenario st.scenarios k
            (fun sc => { sc with steps_ := addLineLast line sc.steps_ })
        | none => st.scenarios
      else st.scenarios }

/-- `allowed_prev_mode = (BACKGROUND, GIVEN, WHEN)`. -/
def allowedPrevModes : List (Option ModeTy) :=
  [some ModeTy.background, some ModeTy.givenStep, some ModeTy.whenStep]

/-- `types.STEP_TYPES = (GIVEN, WHEN, THEN)` (as classified modes). -/
def stepTypesL : List (Option ModeTy) :=
  [some ModeTy.givenStep, some ModeTy.whenStep, some ModeTy.thenStep]

def stepOutsideMsg : String :=
  "Step definition outside of a Scenario or a Background"

def multipleFeaturesMsg : String :=
  "Multiple features are not allowed in a single feature file"

/-- The Feature-mode block: a feature header after an unset or tag
previous mode captures name, line number and tags; after a Feature
previous mode the line joins the description; any other previous mode is
the "multiple features" error.  (The skip of blank lines already tested
`prev_mode not in types.FEATURE`, a Python substring test that equals
`prev_mode != FEATURE` on every actual mode token.) -/
def featurePhase (filename : String) (st : PState) (lineNumber : Nat)
    (clean_line : String) (mode : Option ModeTy) : Except ParseErr PState :=
  if mode = some ModeTy.feature then
    if st.prevMode = none ∨ st.prevMode = some ModeTy.tag then
      Except.ok { st with
        featureName := some (parse_line clean_line).2
        featureLineNumber := lineNumber
        featureTags := get_tags st.prevLine }
    else if st.prevMode = some ModeTy.feature then
      Except.ok { st with description := st.description ++ [clean_line] }
    else
      Except.error (ParseErr.featureError multipleFeaturesMsg lineNumber clean_line filename)
  else Except.ok st

/-- The emission switch on the (possibly sticky) mode.  The Examples
branches reassign the carried local `mode` to the table sub-modes; all
three dereference the current `scenario` and raise `AttributeError` when
it is `None`.  A step line builds a Step and attaches it to the open
background when no scenario has started, else to the current scenario
(an `AttributeError` when that is `None` too). -/
def emitPhase (st : PState) (lineNumber lineIndent : Nat)
    (stripped_line : String) (mode : Option ModeTy)
    (keyword parsed_line : String) : Except ParseErr PState :=
  if mode = some ModeTy.scenario ∨ mode = some ModeTy.scenarioOutline then
    let sc : ScenarioTemplate :=
      { id := st.nextId
        featureRef := true
        name := parsed_line
        line_number := lineNumber
        templated := mode = some ModeTy.scenarioOutline
        tags := get_tags st.prevLine
        examples := {}
        steps_ := [] }
    Except.ok { st with
      scenarios := odInsert st.scenarios parsed_line sc
      scenarioKey := some parsed_line
      nextId := st.nextId + 1
      mode := mode }
  else if mode = some ModeTy.background then
    Except.ok { st with
      featureBackground := some
        { id := st.nextId, featureRef := true, line_number := lineNumber, steps := [] }
      nextId := st.nextId + 1
      mode := mode }
  else if mode = some ModeTy.examples then
    match st.scenarioKey with
    | none => Except.error ParseErr.noneAttribute
    | some k =>
      Except.ok { st with
        scenarios := updateScenario st.scenarios k
          (fun sc => { sc with examples := { sc.examples with line_number := some lineNumber } })
        mode := some ModeTy.examplesHeaders }
  else if mode = some ModeTy.examplesHeaders then
    match st.scenarioKey with
    | none => Except.error ParseErr.noneAttribute
    | some k =>
      Except.ok { st with
        scenarios := updateScenario st.scenarios k
          (fun sc => { sc with examples := { sc.examples with
            example_params := (split_line parsed_line).filter (fun l => l ≠ "") } })
        mode := some ModeTy.exampleLine }
  else if mode = some ModeTy.exampleLine then
    match st.scenarioKey with
    | none => Except.error ParseErr.noneAttribute
    | some k =>
      Except.ok { st with
        scenarios := updateScenario st.scenarios k
          (fun sc => { sc with examples := { sc.examples with
            examples := sc.examples.examples ++ [split_line stripped_line] } })
        mode := mode }
  else if mode ≠ none ∧ mode ∉ [some ModeTy.feature, some ModeTy.tag] then
    match mode with
    | some m =>
      let step := Step.init m parsed_line lineNumber lineIndent keyword
      if st.featureBackground.isSome ∧ st.scenarioKey = none then
        Except.ok { st with
          featureBackground := st.featureBackground.map (fun b => b.add_step step)
          activeStep := some (StepLoc.inBackground, lineIndent)
          mode := mode }
      else
        match st.scenarioKey with
        | none => Except.error ParseErr.noneAttribute
        | some k =>
          Except.ok { st with
            scenarios := updateScenario st.scenarios k (fun sc => sc.add_step step)
            activeStep := some (StepLoc.inScenario, lineIndent)
            mode := mode }
    | none => Except.ok { st with mode := mode }
  else Except.ok { st with mode := mode }

/-- One loop iteration after the multi-line-continuation test: reset the
active step, strip, possibly skip an insignificant blank line, classify
(sticky mode), run the structural guard, the Feature block, record
`prev_mode`, emit, record `prev_line`. -/
def classifyLine (filename : String) (st0 : PState) (lineNumber : Nat)
    (line : String) (lineIndent : Nat) : Except ParseErr PState :=
  let st := { st0 with activeStep := none, multilineStep := false }
  let stripped_line := pyStrip line
  let clean_line := strip_comments line
  if clean_line = "" ∧ st.prevMode ≠ some ModeTy.feature then
    Except.ok st
  else
    let mode := (get_step_type clean_line).orElse (fun _ => st.mode)
    if st.scenarioKey = none ∧ st.prevMode ∉ allowedPrevModes ∧ mode ∈ stepTypesL then
      Except.error (ParseErr.featureError stepOutsideMsg lineNumber clean_line filename)
    else
      match featurePhase filename st lineNumber clean_line mode with
      | Except.error e => Except.error e
      | Except.ok st1 =>
        let st2 := { st1 with prevMode := mode }
        match emitPhase st2 lineNumber lineIndent stripped_line mode
            (parse_line clean_line).1 (parse_line clean_line).2 with
        | Except.error e => Except.error e
        | Except.ok st3 => Except.ok { st3 with prevLine := some clean_line }

/-- One loop iteration: a line is a continuation of the active step when
its indentation exceeds the step's own, or it is blank while already
inside a multi-line block; it is then appended raw and classification is
skipped. -/
def processLine (filename : String) (st : PState) (lineNumber : Nat)
    (line : String) : Except ParseErr PState :=
  let unindented := pyLstrip line
  let lineIndent := line.data.length - unindented.data.length
  match st.activeStep with
  | some (loc, stepIndent) =>
    if stepIndent < lineIndent ∨ (unindented = "" ∧ st.multilineStep) then
      Except.ok (addContinuation st loc line)
    else
      classifyLine filename st lineNumber line lineIndent
  | none => classifyLine filename st lineNumber line lineIndent

/-- Run the loop over the enumerated lines (`n` is the 1-based number of
the first line of the list). -/
def runLines (filename : String) : PState → Nat → List String → Except ParseErr PState
  | st, _, [] => Except.ok st
  | st, n, l :: ls =>
    match processLine filename st n l with
    | Except.error e => Except.error e
    | Except.ok st' => runLines filename st' (n + 1) ls

def initState : PState :=
  { featureName := none
    featureLineNumber := 1
    featureTags := []
    featureBackground := none
    scenarios := []
    scenarioKey := none
    mode := none
    prevMode := none
    description := []
    activeStep := none
    multilineStep := false
    prevLine := none
    nextId := 0 }

/-- `parse_feature`: run the line loop from an initial empty feature and
finish by joining and stripping the description.  The whole-file read and
the `os.path` name resolution are out of scope (spec section 1): the
parser receives the file name and the already split lines, and the
`filename` carried by errors is the one passed in, as in the source. -/
def parse_feature (filename : String) (ls : List String) : Except ParseErr Feature :=
  match runLines filename initState 1 ls with
  | Except.error e => Except.error e
  | Except.ok st =>
    Except.ok
      { scenarios := st.scenarios
        filename := filename
        rel_filename := filename
        name := st.featureName
        tags := st.featureTags
        background := st.featureBackground
        line_number := st.featureLineNumber
        description := pyStrip (joinNL st.description) }

/-- `Except` result is a success. -/
def isOkE : Except ParseErr Feature → Bool
  | Except.ok _ => true
  | Except.error _ => false

/-- The parsed feature paired with its first registered scenario. -/
def firstScenario : Except ParseErr Feature → Option (Feature × ScenarioTemplate)
  | Except.ok f => f.scenarios.head?.map (fun kv => (f, kv.2))
  | Except.error _ => none

/-- The spec's Scenario Outline example: header `name,age`, rows
Alice/30 and Bob/25, one step `Given <name> is <age>`. -/
def c1Lines : List String :=
  [ "Feature: f",
    "Scenario Outline: o",
    "    Given <name> is <age>",
    "    Examples:",
    "    | name | age |",
    "    | Alice | 30 |",
    "    | Bob | 25 |" ]

/-- The spec's Background example: a Background with one step followed by
a Scenario with two steps (distinct indents to tell the steps apart). -/
def c2Lines : List String :=
  [ "Feature: f",
    "Background:",
    "  Given b1",
    "Scenario: s",
    "    Given s1",
    "    Then s2" ]

/-- A well-formed file whose step lines all follow a legally open
Background or Scenario. -/
def c3OkLines : List String :=
  [ "Feature: f",
    "Background:",
    "Given b",
    "Scenario: s",
    "Given x",
    "When y",
    "Then z" ]

/-- A step with an indented, triple-quote delimited two-line block. -/
def c6Lines : List String :=
  [ "Feature: f",
    "Scenario: s",
    "Given I do",
    "    \"\"\"",
    "    first",
    "    second",
    "    \"\"\"" ]

/-- An outline whose step uses a placeholder (`<age>`) that the Examples
header does not declare. -/
def c8Lines : List String :=
  [ "Feature: f",
    "Scenario Outline: o",
    "    Given <name> is <age>",
    "    Examples:",
    "    | name |",
    "    | Alice |" ]

/-- A minimal well-formed file for the validator. -/
def c9Lines : List String :=
  [ "Feature: f",
    "Scenario: s",
    "Given x" ]

/-- Rebind every scenario map key to a name that differs from the
scenario's own name. -/
def withKeyMismatch (f : Feature) : Feature :=
  { f with scenarios := f.scenarios.map (fun kv => ("other", kv.2)) }

/-- Deliberately redirect every scenario step's scenario back-reference
to a foreign identity. -/
def withSwappedStepRef (f : Feature) : Feature :=
  { f with scenarios := f.scenarios.map (fun kv =>
      (kv.1, { kv.2 with steps_ := kv.2.steps_.map (fun st => { st with scenarioRef := some 999 }) })) }

/-- An `Examples:` header with no ScenarioTemplate open. -/
def c10Lines : List String :=
  [ "Feature: f",
    "Examples:" ]

/-- The classified types a line may have before any Scenario, Scenario
Outline, Background, Examples or Given/When/Then line: unclassified
(sticky / And / But / blank / description), tag, or feature. -/
def descModes : List (Option ModeTy) :=
  [none, some ModeTy.tag, some ModeTy.feature]

/-- A line that opens nothing: its classification is unset, tag or
feature. -/
def goodPreLine (l : String) : Prop :=
  get_step_type (strip_comments l) ∈ descModes

instance (l : String) : Decidable (goodPreLine l) := by
  unfold goodPreLine
  infer_instance

/-- Parser-state invariant while only `goodPreLine`s have been seen: no
scenario, no background, no active step, and both the previous and the
sticky mode are unset/tag/feature. -/
def InvC3 (st : PState) : Prop :=
  st.scenarioKey = none ∧ st.featureBackground = none ∧ st.activeStep = none ∧
    st.prevMode ∈ descModes ∧ st.mode ∈ descModes

theorem invc3_init : InvC3 initState := by
  refine ⟨rfl, rfl, rfl, ?_, ?_⟩ <;> decide

theorem get_step_type_empty : get_step_type "" = none := by decide

theorem processLine_good (filename : String) (st : PState) (n : Nat) (l : String)
    (hl : goodPreLine l) (hst : InvC3 st) :
    ∃ st', processLine filename st n l = Except.ok st' ∧ InvC3 st' := by
  obtain ⟨h1, h2, h3, h4, h5⟩ := hst
  obtain ⟨fn0, fln, ftags, fbg, scs, skey, md, pmd, desc, astep, ml, pline, nid⟩ := st
  dsimp only at h1 h2 h3 h4 h5
  subst h1; subst h2; subst h3
  simp only [goodPreLine, descModes, List.mem_cons, List.not_mem_nil, or_false] at hl h4 h5
  unfold processLine classifyLine
  dsimp only
  by_cases hc : strip_comments l = ""
  · rw [hc] at hl
    rcases h4 with h4 | h4 | h4 <;> subst h4 <;>
      rcases h5 with h5 | h5 | h5 <;> subst h5 <;>
      rcases hl with hl | hl | hl <;>
      simp [hc, hl, get_step_type_empty, featurePhase, emitPhase, InvC3, descModes,
        allowedPrevModes, stepTypesL]
  · rcases h4 with h4 | h4 | h4 <;> subst h4 <;>
      rcases h5 with h5 | h5 | h5 <;> subst h5 <;>
      rcases hl with hl | hl | hl <;>
      simp [hc, hl, featurePhase, emitPhase, InvC3, descModes, allowedPrevModes, stepTypesL]

theorem processLine_stepline (filename : String) (st : PState) (n : Nat) (l : String)
    (hst : InvC3 st) (hl : get_step_type (strip_comments l) ∈ stepTypesL) :
    processLine filename st n l
      = Except.error (ParseErr.featureError stepOutsideMsg n (strip_comments l) filename) := by
  obtain ⟨h1, h2, h3, h4, h5⟩ := hst
  obtain ⟨fn0, fln, ftags, fbg, scs, skey, md, pmd, desc, astep, ml, pline, nid⟩ := st
  dsimp only at h1 h2 h3 h4 h5
  subst h1; subst h2; subst h3
  simp only [descModes, stepTypesL, List.mem_cons, List.not_mem_nil, or_false] at hl h4 h5
  have hc : ¬ strip_comments l = "" := by
    intro hc
    rw [hc] at hl
    rcases hl with hl | hl | hl <;> exact Option.noConfusion (get_step_type_empty ▸ hl)
  unfold processLine classifyLine
  dsimp only
  rcases h4 with h4 | h4 | h4 <;> subst h4 <;>
    rcases hl with hl | hl | hl <;>
    simp [hc, hl, allowedPrevModes, stepTypesL]

theorem runLines_error (filename : String) (l : String) (rest : List String)
    (hl : get_step_type (strip_comments l) ∈ stepTypesL) :
    ∀ (pre : List String) (st : PState) (n : Nat),
      (∀ p ∈ pre, goodPreLine p) → InvC3 st →
      runLines filename st n (pre ++ l :: rest)
        = Except.error (ParseErr.featureError stepOutsideMsg (n + pre.length)
            (strip_comments l) filename) := by
  intro pre
  induction pre with
  | nil =>
    intro st n _ hst
    simp only [List.nil_append, runLines, List.length_nil, Nat.add_zero]
    rw [processLine_stepline filename st n l hst hl]
  | cons p pre ih =>
    intro st n hpre hst
    obtain ⟨st', hok, hinv⟩ := processLine_good filename st n p (hpre p (by simp)) hst
    simp only [List.cons_append, runLines, hok]
    have := ih st' (n + 1) (fun q hq => hpre q (by simp [hq])) hinv
    simp only [List.append_eq]
    rw [this]
    congr 1
    congr 1
    simp only [List.length_cons]
    omega

/-- C1: rendering the spec's Scenario Outline (header `name,age`, rows
Alice/30 and Bob/25, step `Given <name> is <age>`) against row 0 does
NOT return the claimed Scenario: it fails with `AttributeError`, because
the hand-written `Step.__init__` never assigns the `_name` /
`line_number` fields that `Step.render` (via the `name` property) and
the rebuild read.  The parse itself succeeds, `as_contexts` yields the
two row mappings, and the placeholder substitution applied to the
intended step text does produce "Alice is 30" / "Bob is 25", confirming
the claim describes the intent while the constructor is the slip. -/
theorem c1_render_attribute_error :
    ((firstScenario (parse_feature "c1.feature" c1Lines)).map
        (fun p => (p.2.templated, p.2.examples.as_contexts))
      = some (true, some [[("name", "Alice"), ("age", "30")], [("name", "Bob"), ("age", "25")]]))
  ∧ ((firstScenario (parse_feature "c1.feature" c1Lines)).map
        (fun p => p.2.render p.1 [("name", "Alice"), ("age", "30")])
      = some (Except.error RenderErr.attributeError))
  ∧ pySub [("name", "Alice"), ("age", "30")] "<name> is <age>" = some "Alice is 30"
  ∧ pySub [("name", "Bob"), ("age", "25")] "<name> is <age>" = some "Bob is 25" :=
  ⟨rfl, rfl, rfl, rfl⟩

/-- C2: the `steps` property of a ScenarioTemplate is the feature
background's step list (when a background exists) concatenated, in
order, with the scenario's own steps, and just the own steps otherwise;
on the spec's example (Background `[S1]`, Scenario `[S2, S3]`) the parsed
scenario's steps are `[S1, S2, S3]` (the three steps identified by
indent, type and keyword). -/
theorem c2_steps_background_concat :
    (∀ (f : Feature) (sc : ScenarioTemplate) (b : Background),
        sc.stepsProp { f with background := some b } = b.steps ++ sc.steps_)
  ∧ (∀ (f : Feature) (sc : ScenarioTemplate),
        sc.stepsProp { f with background := none } = sc.steps_)
  ∧ ((parse_feature "c2.feature" c2Lines).map
        (fun f => f.scenarios.map (fun kv =>
          (kv.1, (kv.2.stepsProp f).map (fun st => (st.indent, st.type, st.keyword)))))
      = Except.ok [("s", [(2, ModeTy.givenStep, "Given"), (4, ModeTy.givenStep, "Given"),
                          (4, ModeTy.thenStep, "Then")])]) := by
  refine ⟨?_, ?_, rfl⟩
  · intro f sc b
    cases f
    rfl
  · intro f sc
    cases f
    simp [ScenarioTemplate.stepsProp]

/-- C3 counterexample: a file in which a Given step keyword line appears
before any Scenario or Background header, yet parsing fails with the
`None`-dereference `AttributeError` of the preceding `Examples:` line,
not with the structural parse error the claim requires for every such
file. -/
theorem c3_examples_line_counterexample :
    parse_feature "t.feature" ["Examples:", "Given x"] = Except.error ParseErr.noneAttribute
  ∧ get_step_type (strip_comments "Given x") = some ModeTy.givenStep :=
  ⟨rfl, rfl⟩

/-- C3 (amended): for every file in which a Given/When/Then step keyword
line is preceded only by lines classified as unset/tag/feature (no
Scenario, Scenario Outline, Background or Examples header and no earlier
step keyword line), parsing fails with the structural parse error
carrying the message, the 1-based number of that line, the
comment-stripped line text and the filename, and no document is
returned; and a file where every step line has a legally open Scenario
or Background parses without this error. -/
theorem c3_step_outside_scenario_error (filename : String) (pre : List String)
    (l : String) (rest : List String)
    (hpre : ∀ p ∈ pre, goodPreLine p)
    (hl : get_step_type (strip_comments l) ∈ stepTypesL) :
    parse_feature filename (pre ++ l :: rest)
        = Except.error (ParseErr.featureError stepOutsideMsg (pre.length + 1)
            (strip_comments l) filename)
      ∧ isOkE (parse_feature "ok.feature" c3OkLines) = true := by
  constructor
  · have h := runLines_error filename l rest hl pre initState 1 hpre invc3_init
    rw [Nat.add_comm 1 pre.length] at h
    unfold parse_feature
    rw [h]
  · rfl

/-- C3 witness: a Given line right after the Feature header errors at
line 2 with the structural parse error. -/
theorem c3_step_outside_scenario_witness :
    parse_feature "w.feature" (["Feature: f"] ++ "Given x" :: [])
        = Except.error (ParseErr.featureError stepOutsideMsg 2 "Given x" "w.feature")
      ∧ isOkE (parse_feature "ok.feature" c3OkLines) = true :=
  c3_step_outside_scenario_error "w.feature" ["Feature: f"] "Given x" []
    (by decide) (by decide)

/-- C4 counterexample: `extract_tags("@a @b @c")` is `{"a"}`, not the
claimed `{"a","b","c"}`: splitting on `" @"` yields `["@a","b","c"]` and
the filter `len(tag) > 1` then drops the single-character pieces `"b"`
and `"c"`, not only empty ones. -/
theorem c4_single_char_tags_counterexample :
    get_tags (some "@a @b @c") = ["a"] ∧ "b" ∉ get_tags (some "@a @b @c") :=
  ⟨rfl, by decide⟩

/-- C4 (amended): a line whose trimmed text does not start with `@`
yields no tags; otherwise the line is split on `" @"` and every piece of
length at most 1 is discarded (the first piece keeps its leading `@`, so
a single-character tag survives only in first position) before stripping
leading `@`s, so `extract_tags("@a @b @c") = {"a"}`,
`extract_tags("not a tag") = {}` and
`extract_tags("@tag1 @tag2") = {"tag1","tag2"}`. -/
theorem c4_get_tags_behavior :
    (∀ l : String, pyStartsWith (pyStrip l) "@" = true ∨ get_tags (some l) = [])
  ∧ get_tags none = []
  ∧ get_tags (some "not a tag") = []
  ∧ get_tags (some "@a @b @c") = ["a"]
  ∧ get_tags (some "@tag1 @tag2") = ["tag1", "tag2"] := by
  refine ⟨?_, rfl, rfl, rfl, rfl⟩
  intro l
  by_cases h : pyStartsWith (pyStrip l) "@" = true
  · exact Or.inl h
  · exact Or.inr (by simp [get_tags, h])

/-- C5 counterexample: `split_row("a|b\|c|d")` is `["b|c"]`, not the
claimed `["a","b|c","d"]`: the slice `[1:-1]` drops the first and the
last split segment unconditionally, and on this input (which has no
boundary pipes) those segments are the non-empty cells `a` and `d`. -/
theorem c5_unwrapped_row_counterexample :
    split_line "a|b\\|c|d" = ["b|c"] := rfl

/-- C5 (amended): `split_row` splits on unescaped `|` (a `\|` is a
literal pipe), drops the first and the last segment unconditionally
(which are exactly the empty boundary segments when the row is wrapped
in boundary pipes), unescapes `\|` to `|`, trims each cell and preserves
order: `split_row("|a|b\|c|d|") = ["a","b|c","d"]` while the unwrapped
`split_row("a|b\|c|d") = ["b|c"]`. -/
theorem c5_split_line_behavior :
    split_line "|a|b\\|c|d|" = ["a", "b|c", "d"]
  ∧ split_line "a|b\\|c|d" = ["b|c"]
  ∧ split_line "| a | b |" = ["a", "b"]
  ∧ split_line "|x|" = ["x"] :=
  ⟨rfl, rfl, rfl, rfl⟩

/-- C6: a step followed by an indented triple-quote-delimited two-line
block captures the four raw continuation lines, but reading the step's
displayed text raises `AttributeError` (modelled as `none`): the
hand-written `Step.__init__` never assigns `_name`, which the `name`
property reads first.  The reconstruction pipeline itself (dedent, strip
the bracketing `\"\"\"` lines, join with the single-line remainder and
trim), applied to the intended `_name`, produces exactly the text the
claim describes, locating the defect in the constructor alone. -/
theorem c6_step_text_attribute_error :
    ((parse_feature "c6.feature" c6Lines).map
        (fun f => f.scenarios.map (fun kv =>
          kv.2.steps_.map (fun st => (st.name_, st.lines, st.nameProp))))
      = Except.ok [[(none, ["    \"\"\"", "    first", "    second", "    \"\"\""], none)]])
  ∧ reconstructName "I do" ["    \"\"\"", "    first", "    second", "    \"\"\""]
      = "I do\nfirst\nsecond" :=
  ⟨rfl, rfl⟩

/-- C7 counterexample: a second Feature-header line directly after the
first is NOT fatal: the file parses, the first header keeps the feature
name, and the second header line lands in the description buffer. -/
theorem c7_consecutive_headers_counterexample :
    (parse_feature "c7.feature" ["Feature: a", "Feature: b"]).map
        (fun f => (f.name, f.description))
      = Except.ok (some "a", "Feature: b") := rfl

/-- C7 (amended): a second occurrence of the Feature-header pattern is
fatal ("multiple features") only when the previous significant mode is
neither unset, tag nor Feature — e.g. after a Scenario and a step line —
and it then carries the line number and text of the second header; when
the previous mode is Feature (immediately after the header or its
description lines) the second header line is appended to the running
description buffer instead, like any other Feature-mode line. -/
theorem c7_multiple_features_behavior :
    parse_feature "c7b.feature" ["Feature: a", "Scenario: s", "Given x", "Feature: b"]
      = Except.error (ParseErr.featureError multipleFeaturesMsg 4 "Feature: b" "c7b.feature")
  ∧ (parse_feature "c7.feature" ["Feature: a", "Feature: b"]).map
        (fun f => (f.name, f.description))
      = Except.ok (some "a", "Feature: b") :=
  ⟨rfl, rfl⟩

/-- C8: a file whose templated step uses a placeholder (`<age>`) absent
from the Examples header parses successfully (column/placeholder
agreement is never checked at parse time), but rendering it does not
fail with the claimed lookup error: it fails earlier with
`AttributeError` because `Step.__init__` never assigned `_name`.  The
substitution applied to the intended step text does fail with the lookup
error (`none` = `KeyError`), confirming where the claimed behavior would
arise once the constructor assigns the field. -/
theorem c8_render_missing_key :
    isOkE (parse_feature "c8.feature" c8Lines) = true
  ∧ ((firstScenario (parse_feature "c8.feature" c8Lines)).map
        (fun p => (p.2.examples.example_params, p.2.render p.1 [("name", "Alice")]))
      = some (["name"], Except.error RenderErr.attributeError))
  ∧ pySub [("name", "Alice")] "<name> is <age>" = none :=
  ⟨rfl, rfl, rfl⟩

/-- C9: the Validator accepts the well-formed parsed tree and raises the
integrity error on a key/name mismatch; but on a tree with a
deliberately swapped step back-reference it raises `AttributeError`
instead of the integrity error, because building the error message
formats the Step (`Step.__str__` reads the `name` property) whose
`_name` field the buggy `Step.__init__` never assigned. -/
theorem c9_validator_behavior :
    ((parse_feature "c9.feature" c9Lines).map Feature.validate = Except.ok (Except.ok ()))
  ∧ ((parse_feature "c9.feature" c9Lines).map (fun f => (withKeyMismatch f).validate)
      = Except.ok (Except.error (VError.validationError "scenario_name mismatch")))
  ∧ ((parse_feature "c9.feature" c9Lines).map (fun f => (withSwappedStepRef f).validate)
      = Except.ok (Except.error VError.attributeError)) :=
  ⟨rfl, rfl, rfl⟩

/-- C10: an `Examples:` header with no open ScenarioTemplate does not
raise the structural parse error (which guards only Given/When/Then
lines — a Given in the same position does raise it): it aborts with the
`AttributeError` of dereferencing the absent scenario while recording
the Examples block's line number. -/
theorem c10_examples_without_scenario :
    parse_feature "c10.feature" c10Lines = Except.error ParseErr.noneAttribute
  ∧ (∀ m n t fn, parse_feature "c10.feature" c10Lines
      ≠ Except.error (ParseErr.featureError m n t fn))
  ∧ parse_feature "c10b.feature" ["Feature: f", "Given x"]
      = Except.error (ParseErr.featureError stepOutsideMsg 2 "Given x" "c10b.feature") := by
  have heq : parse_feature "c10.feature" c10Lines = Except.error ParseErr.noneAttribute := rfl
  refine ⟨heq, ?_, rfl⟩
  intro m n t fn h
  rw [heq] at h
  injection h with h2
  exact ParseErr.noConfusion h2
